import Mathlib

/-!
Verification of the relayer end-to-end orchestration script (runall.py).

The script drives an external relayer process through a fixed sequence of
commands: two light-client lifecycles (create, query, update, query) and a
four-step connection handshake (init, try, ack, confirm).  This file gives a
shallow embedding of the script:

* decoded JSON replies are modelled by the inductive `Json`;
* Python runtime faults raised by the decoding helpers (`KeyError`,
  `IndexError`, `TypeError`, `AttributeError`) are modelled by `PyErr`;
* each command class (`TxCreateClient`, ..., `TxConnConfirm`) is a structure
  with its `name`, `args` and `process` translated line by line from the
  source; identifier-valued fields that receive values extracted from agent
  replies are typed `Json`, because `from_dict` copies reply values with no
  validation;
* the generic envelope `CmdResult.success` is translated with Python's
  truthiness semantics (`x or d` picks `d` exactly when `x` is falsy);
* the external agent (subprocess spawn + stdout JSON decode) is the impure
  boundary: it is modelled as an oracle `Agent` mapping an operation name and
  its rendered argument tokens to the decoded reply; the orchestrator is a
  state-threading function accumulating a trace of `Effect`s (issued
  commands, inter-step delays, error logs);
* the stdout line-selection of `Cmd.run` is modelled separately at the
  string level (`selectOutputLine`).
-/

/-- A decoded JSON value (the value produced by `json.loads` on a reply line).
Numbers are modelled as integers: every numeric field the script touches is an
integral height or revision. -/
inductive Json where
  | null
  | bool (b : Bool)
  | num (n : Int)
  | str (s : String)
  | arr (xs : List Json)
  | obj (kvs : List (String × Json))

mutual

/-- Structural equality of decoded JSON values, standing in for Python `==`
on decoded replies (object key order is not significant in Python; the script
only ever compares identifier strings, where the two notions agree). -/
def Json.beq : Json → Json → Bool
  | .null, .null => true
  | .bool a, .bool b => a == b
  | .num a, .num b => a == b
  | .str a, .str b => a == b
  | .arr a, .arr b => Json.beqList a b
  | .obj a, .obj b => Json.beqObj a b
  | _, _ => false

/-- Elementwise equality of JSON arrays. -/
def Json.beqList : List Json → List Json → Bool
  | [], [] => true
  | a :: as, b :: bs => Json.beq a b && Json.beqList as bs
  | _, _ => false

/-- Elementwise equality of JSON objects. -/
def Json.beqObj : List (String × Json) → List (String × Json) → Bool
  | [], [] => true
  | (k1, v1) :: as, (k2, v2) :: bs => k1 == k2 && Json.beq v1 v2 && Json.beqObj as bs
  | _, _ => false

end

/-- Python truthiness on decoded JSON values: `None`, `False`, `0`, `""`,
`[]` and the empty dict are falsy, everything else is truthy. -/
def Json.falsy : Json → Bool
  | .null => true
  | .bool b => !b
  | .num n => n == 0
  | .str s => s == ""
  | .arr xs => xs.isEmpty
  | .obj kvs => kvs.isEmpty

/-- Python `x or d` where `x` is an optional JSON value (`none` models both
an absent key, i.e. `dict.get` returning `None`): the default is taken
exactly when the value is absent or falsy. -/
def pyOr (x : Option Json) (d : Json) : Json :=
  match x with
  | none => d
  | some v => if v.falsy then d else v

/-- Python runtime faults raised by the reply-decoding helpers. -/
inductive PyErr where
  | keyError (k : String)
  | keyErrorIdx (i : Nat)
  | indexError
  | typeError
  | attributeError

/-- Python `d.get(k)` on a decoded value: `None`-or-value on a dict, and an
`AttributeError` on any non-dict value. -/
def dictGet : Json → String → Except PyErr (Option Json)
  | .obj kvs, k => .ok ((kvs.find? (fun p => p.1 == k)).map (fun p => p.2))
  | .null, _ | .bool _, _ | .num _, _ | .str _, _ | .arr _, _ => .error .attributeError

/-- Python `d[k]` with a string key: a value or `KeyError` on a dict, a `TypeError`
on anything else (including lists, which Python refuses to index by `str`). -/
def pyGetKey : Json → String → Except PyErr Json
  | .obj kvs, k =>
    match kvs.find? (fun p => p.1 == k) with
    | some p => .ok p.2
    | none => .error (.keyError k)
  | .null, _ | .bool _, _ | .num _, _ | .str _, _ | .arr _, _ => .error .typeError

/-- Python `d[i]` with a (non-negative) integer index: element or `IndexError` on a
list, one-character string or `IndexError` on a string, `KeyError` on a dict
(JSON object keys are strings, so an integer key is never present), and a
`TypeError` on the remaining values. -/
def pyGetIdx : Json → Nat → Except PyErr Json
  | .arr xs, i =>
    match xs.get? i with
    | some v => .ok v
    | none => .error .indexError
  | .obj _, i => .error (.keyErrorIdx i)
  | .str s, i =>
    match s.data.get? i with
    | some ch => .ok (.str (String.mk [ch]))
    | none => .error .indexError
  | .null, _ | .bool _, _ | .num _, _ => .error .typeError

/-- A `Height` as reconstructed by `from_dict(Height, d)`: the two fields are
copied from the reply dict unchanged (the reflective reconstruction performs
no type validation, so the fields hold arbitrary JSON values). Field order
matches the dataclass declaration. -/
structure Height where
  revision_height : Json
  revision_number : Json

/-- Embeds `from_dict(Height, dikt)`: look up the two declared fields in declaration
order and copy their values unchanged. -/
def from_dict_Height (dikt : Json) : Except PyErr Height :=
  match pyGetKey dikt "revision_height" with
  | .error e => .error e
  | .ok rh =>
    match pyGetKey dikt "revision_number" with
    | .error e => .error e
    | .ok rn => .ok ⟨rh, rn⟩

/-- Result of `tx raw create-client`: the extracted client identifier,
copied unchanged from the reply. -/
structure TxCreateClientRes where
  client_id : Json

/-- Result of `tx raw update-client`. -/
structure TxUpdateClientRes where
  consensus_height : Height

/-- Result of `query client state`. -/
structure QueryClientStateRes where
  latest_height : Height

/-- Result of `tx raw conn-init`. -/
structure TxConnInitRes where
  connection_id : Json

/-- Result of `tx raw conn-try`. -/
structure TxConnTryRes where
  connection_id : Json

/-- Result of `tx raw conn-ack`. -/
structure TxConnAckRes where
  connection_id : Json

/-- Result of `tx raw conn-confirm`. -/
structure TxConnConfirmRes where
  connection_id : Json

/-- The `tx raw create-client` command: chain identifiers are the string
arguments supplied by the orchestrator. -/
structure TxCreateClient where
  dst_chain_id : String
  src_chain_id : String

/-- Operation name of `TxCreateClient` (the `@cmd` decorator argument). -/
def TxCreateClient.name : String := "tx raw create-client"

/-- Parameter tokens of `TxCreateClient`. -/
def TxCreateClient.args (t : TxCreateClient) : List Json :=
  [.str t.dst_chain_id, .str t.src_chain_id]

/-- Embeds `TxCreateClient.process`: `from_dict(TxCreateClientRes, result[0]['CreateClient'])`. -/
def TxCreateClient.process (result : Json) : Except PyErr TxCreateClientRes :=
  match pyGetIdx result 0 with
  | .error e => .error e
  | .ok e0 =>
    match pyGetKey e0 "CreateClient" with
    | .error e => .error e
    | .ok d =>
      match pyGetKey d "client_id" with
      | .error e => .error e
      | .ok cid => .ok ⟨cid⟩

/-- The `tx raw update-client` command.  The client identifier field receives
a value extracted from an earlier reply, hence `Json`. -/
structure TxUpdateClient where
  dst_chain_id : String
  src_chain_id : String
  dst_client_id : Json

/-- Operation name of `TxUpdateClient`. -/
def TxUpdateClient.name : String := "tx raw update-client"

/-- Parameter tokens of `TxUpdateClient`. -/
def TxUpdateClient.args (t : TxUpdateClient) : List Json :=
  [.str t.dst_chain_id, .str t.src_chain_id, t.dst_client_id]

/-- Embeds `TxUpdateClient.process`: `from_dict(TxUpdateClientRes, result[0]['UpdateClient'])`;
the `consensus_height` field is itself a dataclass, so `from_dict` recurses. -/
def TxUpdateClient.process (result : Json) : Except PyErr TxUpdateClientRes :=
  match pyGetIdx result 0 with
  | .error e => .error e
  | .ok e0 =>
    match pyGetKey e0 "UpdateClient" with
    | .error e => .error e
    | .ok d =>
      match pyGetKey d "consensus_height" with
      | .error e => .error e
      | .ok ch =>
        match from_dict_Height ch with
        | .error e => .error e
        | .ok h => .ok ⟨h⟩

/-- The `query client state` command; `height` and `proof` keep their Python
defaults `None` and `False` (the orchestrator always constructs the command
with the defaults, and the `height` annotation is `Optional[int]`). -/
structure QueryClientState where
  chain_id : String
  client_id : Json
  height : Option Int := none
  proof : Bool := false

/-- Operation name of `QueryClientState`. -/
def QueryClientState.name : String := "query client state"

/-- Parameter tokens of `QueryClientState`: the optional `--height` flag and
its value are emitted only when `height` is not `None`, the bare `--proof`
flag only when `proof` is true, then the two positional identifiers. -/
def QueryClientState.args (q : QueryClientState) : List Json :=
  (match q.height with
   | some h => [.str "--height", .str (toString h)]
   | none => []) ++
  (if q.proof then [.str "--proof"] else []) ++
  [.str q.chain_id, q.client_id]

/-- Embeds `QueryClientState.process`: `from_dict(QueryClientStateRes, result[0])`. -/
def QueryClientState.process (result : Json) : Except PyErr QueryClientStateRes :=
  match pyGetIdx result 0 with
  | .error e => .error e
  | .ok e0 =>
    match pyGetKey e0 "latest_height" with
    | .error e => .error e
    | .ok lh =>
      match from_dict_Height lh with
      | .error e => .error e
      | .ok h => .ok ⟨h⟩

/-- The `tx raw conn-init` command. -/
structure TxConnInit where
  src_chain_id : String
  dst_chain_id : String
  src_client_id : Json
  dst_client_id : Json

/-- Operation name of `TxConnInit`. -/
def TxConnInit.name : String := "tx raw conn-init"

/-- Parameter tokens of `TxConnInit`: both connection names are the fixed
placeholder token. -/
def TxConnInit.args (t : TxConnInit) : List Json :=
  [.str t.dst_chain_id, .str t.src_chain_id,
   t.dst_client_id, t.src_client_id,
   .str "default-conn", .str "default-conn"]

/-- Embeds `TxConnInit.process`: `from_dict(TxConnInitRes, result[0]['OpenInitConnection'])`. -/
def TxConnInit.process (result : Json) : Except PyErr TxConnInitRes :=
  match pyGetIdx result 0 with
  | .error e => .error e
  | .ok e0 =>
    match pyGetKey e0 "OpenInitConnection" with
    | .error e => .error e
    | .ok d =>
      match pyGetKey d "connection_id" with
      | .error e => .error e
      | .ok cid => .ok ⟨cid⟩

/-- The `tx raw conn-try` command. -/
structure TxConnTry where
  src_chain_id : String
  dst_chain_id : String
  src_client_id : Json
  dst_client_id : Json
  src_conn_id : Json

/-- Operation name of `TxConnTry`. -/
def TxConnTry.name : String := "tx raw conn-try"

/-- Parameter tokens of `TxConnTry`. -/
def TxConnTry.args (t : TxConnTry) : List Json :=
  [.str t.dst_chain_id, .str t.src_chain_id,
   t.dst_client_id, t.src_client_id,
   .str "default-conn", t.src_conn_id]

/-- Embeds `TxConnTry.process`: `from_dict(TxConnTryRes, result[0]['OpenTryConnection'])`. -/
def TxConnTry.process (result : Json) : Except PyErr TxConnTryRes :=
  match pyGetIdx result 0 with
  | .error e => .error e
  | .ok e0 =>
    match pyGetKey e0 "OpenTryConnection" with
    | .error e => .error e
    | .ok d =>
      match pyGetKey d "connection_id" with
      | .error e => .error e
      | .ok cid => .ok ⟨cid⟩

/-- The `tx raw conn-ack` command. -/
structure TxConnAck where
  src_chain_id : String
  dst_chain_id : String
  src_client_id : Json
  dst_client_id : Json
  src_conn_id : Json
  dst_conn_id : Json

/-- Operation name of `TxConnAck`. -/
def TxConnAck.name : String := "tx raw conn-ack"

/-- Parameter tokens of `TxConnAck`. -/
def TxConnAck.args (t : TxConnAck) : List Json :=
  [.str t.dst_chain_id, .str t.src_chain_id,
   t.dst_client_id, t.src_client_id,
   t.dst_conn_id, t.src_conn_id]

/-- Embeds `TxConnAck.process`: `from_dict(TxConnAckRes, result[0]['OpenAckConnection'])`. -/
def TxConnAck.process (result : Json) : Except PyErr TxConnAckRes :=
  match pyGetIdx result 0 with
  | .error e => .error e
  | .ok e0 =>
    match pyGetKey e0 "OpenAckConnection" with
    | .error e => .error e
    | .ok d =>
      match pyGetKey d "connection_id" with
      | .error e => .error e
      | .ok cid => .ok ⟨cid⟩

/-- The `tx raw conn-confirm` command. -/
structure TxConnConfirm where
  src_chain_id : String
  dst_chain_id : String
  src_client_id : Json
  dst_client_id : Json
  src_conn_id : Json
  dst_conn_id : Json

/-- Operation name of `TxConnConfirm`. -/
def TxConnConfirm.name : String := "tx raw conn-confirm"

/-- Parameter tokens of `TxConnConfirm`. -/
def TxConnConfirm.args (t : TxConnConfirm) : List Json :=
  [.str t.dst_chain_id, .str t.src_chain_id,
   t.dst_client_id, t.src_client_id,
   t.dst_conn_id, t.src_conn_id]

/-- Embeds `TxConnConfirm.process`: `from_dict(TxConnConfirmRes, result[0]['OpenConfirmConnection'])`. -/
def TxConnConfirm.process (result : Json) : Except PyErr TxConnConfirmRes :=
  match pyGetIdx result 0 with
  | .error e => .error e
  | .ok e0 =>
    match pyGetKey e0 "OpenConfirmConnection" with
    | .error e => .error e
    | .ok d =>
      match pyGetKey d "connection_id" with
      | .error e => .error e
      | .ok cid => .ok ⟨cid⟩

/-- Failures that abort a run: `expectedSuccess` models the `ExpectedSuccess`
exception (carrying the offending command's name and rendered arguments, the
actual status and the raw result payload), and `pyError` models an uncaught
Python fault from reply decoding or from handing a non-string token to the
subprocess spawner. -/
inductive Failure where
  | expectedSuccess (cmdName : String) (cmdArgs : List String) (status : Json) (result : Json)
  | pyError (e : PyErr)

/-- The envelope returned by `Cmd.run`: the originating command (its name,
rendered argument tokens and `process` function) together with the decoded
reply. -/
structure CmdResultG (α : Type) where
  cmdName : String
  cmdArgs : List String
  process : Json → Except PyErr α
  result : Json

/-- Embeds `CmdResult.success`, translated with Python truthiness:
read `status` (any falsy value, including an absent key, collapses to
`"unknown"`) and `result` (any falsy value collapses to the empty dict);
on `status == "success"` delegate to the command's `process`, otherwise
fail with `ExpectedSuccess` carrying the normalized status and payload. -/
def CmdResult.success {α : Type} (r : CmdResultG α) : Except Failure α :=
  match dictGet r.result "status" with
  | .error e => .error (.pyError e)
  | .ok rawStatus =>
    match dictGet r.result "result" with
    | .error e => .error (.pyError e)
    | .ok rawResult =>
      let status := pyOr rawStatus (.str "unknown")
      let result := pyOr rawResult (.obj [])
      if Json.beq status (.str "success") then
        match r.process result with
        | .ok v => .ok v
        | .error e => .error (.pyError e)
      else
        .error (.expectedSuccess r.cmdName r.cmdArgs status result)

/-- The external relayer process, abstracted as an oracle from the operation
name and the rendered (string) argument tokens of an invocation to the decoded
JSON value of the last stdout line.  Spawning the subprocess and decoding its
output is the impure boundary of the script; the line selection performed by
`Cmd.run` is modelled separately at the string level below. -/
def Agent : Type := String → List String → Json

/-- Observable effects of a run, in order: `issue c n a` is one subprocess
invocation of the agent (`subprocess.run` on the launcher prefix with
configuration path `c`, followed by the operation-name tokens of `n` and the
parameter tokens `a`); `delay` is the fixed inter-step sleep performed by
`split()`; `logError e g` is the error-level diagnostic emitted on a
connection-identifier mismatch, carrying the expected and actual values. -/
inductive Effect where
  | issue (config : String) (cmdName : String) (argv : List String)
  | delay
  | logError (expected got : Json)

/-- The fixed launcher prefix of every invocation:
`f'cargo run --bin relayer -- -c {config}'.split(' ')`. -/
def launcherTokens (config : String) : List String :=
  ("cargo run --bin relayer -- -c " ++ config).splitOn " "

/-- The complete token sequence handed to `subprocess.run` for one command. -/
def fullCmd (config : String) (name : String) (args : List String) : List String :=
  launcherTokens config ++ name.splitOn " " ++ args

/-- The rendered parameter list is handed to `subprocess.run`, which accepts
only strings: `asStrs` extracts the underlying strings, and is `none` when
some token is a non-string reply value that leaked into the parameters (in
which case Python raises a `TypeError` before spawning anything). -/
def asStrs : List Json → Option (List String)
  | [] => some []
  | .str s :: rest => (asStrs rest).map (fun ss => s :: ss)
  | .null :: _ | .bool _ :: _ | .num _ :: _ | .arr _ :: _ | .obj _ :: _ => none

/-- A step of the orchestration: state-threading of the accumulated effect
trace, with the `Except` component recording an uncaught exception.  Effects
performed before the exception stay in the trace. -/
def OrcM (α : Type) : Type := List Effect → Except Failure α × List Effect

/-- Embeds `Cmd.run(config)`: build the full invocation, spawn the agent, decode the
last output line (the oracle returns the decoded value directly) and wrap it
in an envelope referencing the originating command. -/
def cmdRun {α : Type} (agent : Agent) (config : String) (name : String)
    (args : List Json) (process : Json → Except PyErr α) : OrcM (CmdResultG α) :=
  fun fx =>
    match asStrs args with
    | none => (.error (.pyError .typeError), fx)
    | some sargs =>
      (.ok ⟨name, sargs, process, agent name sargs⟩, fx ++ [.issue config name sargs])

/-- The ubiquitous call pattern `cmd.run(config).success()`. -/
def runSuccess {α : Type} (agent : Agent) (config : String) (name : String)
    (args : List Json) (process : Json → Except PyErr α) : OrcM α :=
  fun fx =>
    match cmdRun agent config name args process fx with
    | (.error e, fx1) => (.error e, fx1)
    | (.ok r, fx1) => (CmdResult.success r, fx1)

/-- Embeds `split()`: sleep for the fixed inter-step delay (and print a blank line);
pure trace extension, it can never fail. -/
def split (fx : List Effect) : List Effect :=
  fx ++ [.delay]

/-- Embeds `create_client(c, dst, src)`. -/
def create_client (agent : Agent) (c : String) (dst src : String) :
    OrcM TxCreateClientRes :=
  runSuccess agent c TxCreateClient.name
    (TxCreateClient.args ⟨dst, src⟩) TxCreateClient.process

/-- Embeds `update_client(c, dst, src, client_id)`. -/
def update_client (agent : Agent) (c : String) (dst src : String)
    (client_id : Json) : OrcM TxUpdateClientRes :=
  runSuccess agent c TxUpdateClient.name
    (TxUpdateClient.args ⟨dst, src, client_id⟩) TxUpdateClient.process

/-- Embeds `query_client_state(c, chain_id, client_id)`: the command is constructed
with the defaults `height=None`, `proof=False`. -/
def query_client_state (agent : Agent) (c : String) (chain_id : String)
    (client_id : Json) : OrcM QueryClientStateRes :=
  runSuccess agent c QueryClientState.name
    (QueryClientState.args ⟨chain_id, client_id, none, false⟩) QueryClientState.process

/-- Embeds `create_update_query_client(c, dst, src)`: create a client, then query,
update and query it again, with the fixed delay after every step, and return
the client identifier produced by the create step. -/
def create_update_query_client (agent : Agent) (c : String) (dst src : String) :
    OrcM Json :=
  fun fx =>
    match create_client agent c dst src fx with
    | (.error e, fx1) => (.error e, fx1)
    | (.ok client, fx1) =>
      match query_client_state agent c dst client.client_id (split fx1) with
      | (.error e, fx2) => (.error e, fx2)
      | (.ok _, fx2) =>
        match update_client agent c dst src client.client_id (split fx2) with
        | (.error e, fx3) => (.error e, fx3)
        | (.ok _, fx3) =>
          match query_client_state agent c dst client.client_id (split fx3) with
          | (.error e, fx4) => (.error e, fx4)
          | (.ok _, fx4) => (.ok client.client_id, split fx4)

/-- Embeds `conn_init(c, src, dst, src_client, dst_client)`. -/
def conn_init (agent : Agent) (c : String) (src dst : String)
    (src_client dst_client : Json) : OrcM Json :=
  fun fx =>
    match runSuccess agent c TxConnInit.name
        (TxConnInit.args ⟨src, dst, src_client, dst_client⟩) TxConnInit.process fx with
    | (.error e, fx1) => (.error e, fx1)
    | (.ok res, fx1) => (.ok res.connection_id, fx1)

/-- Embeds `conn_try(c, src, dst, src_client, dst_client, src_conn)`. -/
def conn_try (agent : Agent) (c : String) (src dst : String)
    (src_client dst_client src_conn : Json) : OrcM Json :=
  fun fx =>
    match runSuccess agent c TxConnTry.name
        (TxConnTry.args ⟨src, dst, src_client, dst_client, src_conn⟩)
        TxConnTry.process fx with
    | (.error e, fx1) => (.error e, fx1)
    | (.ok res, fx1) => (.ok res.connection_id, fx1)

/-- Embeds `conn_ack(c, src, dst, src_client, dst_client, src_conn, dst_conn)`. -/
def conn_ack (agent : Agent) (c : String) (src dst : String)
    (src_client dst_client src_conn dst_conn : Json) : OrcM Json :=
  fun fx =>
    match runSuccess agent c TxConnAck.name
        (TxConnAck.args ⟨src, dst, src_client, dst_client, src_conn, dst_conn⟩)
        TxConnAck.process fx with
    | (.error e, fx1) => (.error e, fx1)
    | (.ok res, fx1) => (.ok res.connection_id, fx1)

/-- Embeds `conn_confirm(c, src, dst, src_client, dst_client, src_conn, dst_conn)`. -/
def conn_confirm (agent : Agent) (c : String) (src dst : String)
    (src_client dst_client src_conn dst_conn : Json) : OrcM Json :=
  fun fx =>
    match runSuccess agent c TxConnConfirm.name
        (TxConnConfirm.args ⟨src, dst, src_client, dst_client, src_conn, dst_conn⟩)
        TxConnConfirm.process fx with
    | (.error e, fx1) => (.error e, fx1)
    | (.ok res, fx1) => (.ok res.connection_id, fx1)

/-- Embeds `connection_handshake(c, side_a, side_b, client_a, client_b)`: the
INIT, TRY, ACK, CONFIRM sequence.  After ACK and after CONFIRM the returned
connection identifier is compared with the one produced earlier on the same
side; a mismatch is logged at error level and execution continues.  The
delay is inserted after INIT, TRY and ACK, and there is none after CONFIRM.
Returns the pair produced by INIT and TRY. -/
def connection_handshake (agent : Agent) (c : String) (side_a side_b : String)
    (client_a client_b : Json) : OrcM (Json × Json) :=
  fun fx =>
    match conn_init agent c side_a side_b client_a client_b fx with
    | (.error e, fx1) => (.error e, fx1)
    | (.ok a_conn_id, fx1) =>
      match conn_try agent c side_b side_a client_b client_a a_conn_id (split fx1) with
      | (.error e, fx2) => (.error e, fx2)
      | (.ok b_conn_id, fx2) =>
        match conn_ack agent c side_a side_b client_a client_b b_conn_id a_conn_id
            (split fx2) with
        | (.error e, fx3) => (.error e, fx3)
        | (.ok ack_res, fx3) =>
          let fx4 := if Json.beq ack_res a_conn_id then fx3
            else fx3 ++ [.logError a_conn_id ack_res]
          match conn_confirm agent c side_b side_a client_b client_a a_conn_id b_conn_id
              (split fx4) with
          | (.error e, fx5) => (.error e, fx5)
          | (.ok confirm_res, fx5) =>
            let fx6 := if Json.beq confirm_res b_conn_id then fx5
              else fx5 ++ [.logError b_conn_id confirm_res]
            (.ok (a_conn_id, b_conn_id), fx6)

/-- Embeds `run(c)`: the full top-level sequence — one client lifecycle per
direction, an extra delay, then one connection handshake on chains
`ibc-1`/`ibc-0` using the two client identifiers. -/
def runAll (agent : Agent) (c : String) : OrcM Unit :=
  fun fx =>
    match create_update_query_client agent c "ibc-0" "ibc-1" fx with
    | (.error e, fx1) => (.error e, fx1)
    | (.ok ibc0_client_id, fx1) =>
      match create_update_query_client agent c "ibc-1" "ibc-0" fx1 with
      | (.error e, fx2) => (.error e, fx2)
      | (.ok ibc1_client_id, fx2) =>
        match connection_handshake agent c "ibc-1" "ibc-0" ibc1_client_id ibc0_client_id
            (split fx2) with
        | (.error e, fx3) => (.error e, fx3)
        | (.ok _, fx3) => (.ok (), fx3)

/-- Python `str.splitlines` on the character list of a captured stdout,
restricted to `\n` line endings (the only terminator the relayer's output
uses): split at every newline, without producing a final empty piece for a
trailing newline. -/
def splitlinesChars : List Char → List (List Char)
  | [] => []
  | c :: rest =>
    if c = '\n' then [] :: splitlinesChars rest
    else
      match splitlinesChars rest with
      | [] => [[c]]
      | l :: ls => (c :: l) :: ls

/-- Embeds `res.stdout.splitlines()`. -/
def pySplitlines (s : String) : List String :=
  (splitlinesChars s.data).map (fun l => String.mk l)

/-- The line `Cmd.run` hands to `json.loads`:
`lines = res.stdout.splitlines(); last_line = ''.join(lines[-1:])` — the
final line of the captured output, or the empty string when there is none. -/
def selectOutputLine (stdout : String) : String :=
  let lines := pySplitlines stdout
  String.join (lines.drop (lines.length - 1))

/-- Modelled from the spec: "Split standard output into lines; take the last
non-empty line". This is the specified line selection, to be compared with
`selectOutputLine`, the one the code performs. -/
def lastNonEmptyLine (stdout : String) : String :=
  ((pySplitlines stdout).filter (fun l => l ≠ "")).getLastD ""

/-- A reply envelope with status `"success"` whose result is the one-element
array `[{tag: fields}]` — the shape produced by the relayer for transaction
commands. -/
def mkTaggedReply (tag : String) (fields : List (String × Json)) : Json :=
  .obj [("status", .str "success"),
        ("result", .arr [.obj [(tag, .obj fields)]])]

/-- A well-behaved mock agent: every reply is a success whose payload is the
shape the corresponding `process` expects, the ack echoes the init-produced
connection identifier and the confirm echoes the try-produced one. -/
def mockAgent : Agent := fun name _args =>
  if name = "tx raw create-client" then
    mkTaggedReply "CreateClient" [("client_id", .str "07-tendermint-0")]
  else if name = "tx raw update-client" then
    mkTaggedReply "UpdateClient"
      [("consensus_height",
        .obj [("revision_height", .num 11), ("revision_number", .num 0)])]
  else if name = "query client state" then
    .obj [("status", .str "success"),
          ("result", .arr [.obj [("latest_height",
            .obj [("revision_height", .num 10), ("revision_number", .num 0)])]])]
  else if name = "tx raw conn-init" then
    mkTaggedReply "OpenInitConnection" [("connection_id", .str "connection-0")]
  else if name = "tx raw conn-try" then
    mkTaggedReply "OpenTryConnection" [("connection_id", .str "connection-1")]
  else if name = "tx raw conn-ack" then
    mkTaggedReply "OpenAckConnection" [("connection_id", .str "connection-0")]
  else
    mkTaggedReply "OpenConfirmConnection" [("connection_id", .str "connection-1")]

/-- A mock agent identical to `mockAgent` except that the ack step returns a
connection identifier different from the init-produced one. -/
def mockAgentAckMismatch : Agent := fun name args =>
  if name = "tx raw conn-ack" then
    mkTaggedReply "OpenAckConnection" [("connection_id", .str "connection-99")]
  else mockAgent name args

/-- A mock agent whose every reply is the error envelope of end-to-end
scenario 3. -/
def mockAgentError : Agent := fun _name _args =>
  .obj [("status", .str "error"), ("result", .obj [("msg", .str "boom")])]

/-- The effect trace of a full run against `mockAgent`, starting empty. -/
def mockTrace (config : String) : List Effect :=
  (runAll mockAgent config []).2

/-- The reply of `agent` to the command with the given name, rendered string
arguments and `process` function is successfully unwrapped to `v`:
`status` is `"success"` and `process` accepts the (normalized) payload. -/
def replyOk {α : Type} (agent : Agent) (name : String) (sargs : List String)
    (process : Json → Except PyErr α) (v : α) : Prop :=
  CmdResult.success ⟨name, sargs, process, agent name sargs⟩ = .ok v

/-- Is this effect an issued command? -/
def Effect.isIssue : Effect → Bool
  | .issue _ _ _ => true
  | _ => false

/-- Is this effect the inter-step delay? -/
def Effect.isDelay : Effect → Bool
  | .delay => true
  | _ => false

/-- The issued commands of a trace, as (configuration, operation name,
rendered arguments) triples, in order. -/
def issuesOf (tr : List Effect) : List (String × String × List String) :=
  tr.filterMap (fun e =>
    match e with
    | .issue c n a => some (c, n, a)
    | .delay => none
    | .logError _ _ => none)

/-- The property claimed of the traces: every issued command is (eventually)
followed by a delay effect. -/
def everyIssueFollowedByDelay : List Effect → Bool
  | [] => true
  | e :: rest => (!e.isIssue || rest.any Effect.isDelay) && everyIssueFollowedByDelay rest

/-- The property the traces actually have: every issued command other than
the last one is followed by a delay effect. -/
def everyIssueButLastFollowedByDelay : List Effect → Bool
  | [] => true
  | e :: rest =>
    (!e.isIssue || rest.any Effect.isDelay || !rest.any Effect.isIssue) &&
      everyIssueButLastFollowedByDelay rest

/-- The expected issued-command sequence of a full run: the four client
lifecycle steps towards `ibc-0`, the four towards `ibc-1`, then the four
handshake steps, with the client identifiers `cid0` and `cid1` produced by
the two create steps and the connection identifiers `ca` and `cb` produced
by init and try. -/
def expectedIssues (c cid0 cid1 ca cb : String) : List (String × String × List String) :=
  [(c, "tx raw create-client", ["ibc-0", "ibc-1"]),
   (c, "query client state", ["ibc-0", cid0]),
   (c, "tx raw update-client", ["ibc-0", "ibc-1", cid0]),
   (c, "query client state", ["ibc-0", cid0]),
   (c, "tx raw create-client", ["ibc-1", "ibc-0"]),
   (c, "query client state", ["ibc-1", cid1]),
   (c, "tx raw update-client", ["ibc-1", "ibc-0", cid1]),
   (c, "query client state", ["ibc-1", cid1]),
   (c, "tx raw conn-init", ["ibc-0", "ibc-1", cid0, cid1, "default-conn", "default-conn"]),
   (c, "tx raw conn-try", ["ibc-1", "ibc-0", cid1, cid0, "default-conn", ca]),
   (c, "tx raw conn-ack", ["ibc-0", "ibc-1", cid0, cid1, ca, cb]),
   (c, "tx raw conn-confirm", ["ibc-1", "ibc-0", cid1, cid0, cb, ca])]

/-- The raw `status` field of a decoded reply object (`None` when absent). -/
def envStatus (kvs : List (String × Json)) : Option Json :=
  (kvs.find? (fun p => p.1 == "status")).map (fun p => p.2)

/-- The raw `result` field of a decoded reply object (`None` when absent). -/
def envResult (kvs : List (String × Json)) : Option Json :=
  (kvs.find? (fun p => p.1 == "result")).map (fun p => p.2)

/-- Python truthiness of an optional field value: absent counts as falsy. -/
def optFalsy : Option Json → Bool
  | none => true
  | some v => v.falsy

/-- C7: for every `QueryClientState` value, `args()` emits the
`['--height', str(height)]` tokens exactly when the optional height is
present, the bare `--proof` token exactly when `proof` is true, and when both
are absent/false the rendered parameter list is exactly
`[chain_id, client_id]`; an absent optional field contributes no token at
all (in particular never an empty one). -/
theorem c7_query_client_state_args (q : QueryClientState) :
    ((q.height = none ∧ q.proof = false) →
      q.args = [.str q.chain_id, q.client_id]) ∧
    (∀ n : Int, q.height = some n →
      q.args = [.str "--height", .str (toString n)] ++
        (if q.proof then [.str "--proof"] else []) ++
        [.str q.chain_id, q.client_id]) ∧
    (q.height = none →
      q.args = (if q.proof then [.str "--proof"] else []) ++
        [.str q.chain_id, q.client_id]) ∧
    (q.proof = false →
      q.args = (match q.height with
         | some n => [.str "--height", .str (toString n)]
         | none => []) ++
        [.str q.chain_id, q.client_id]) := by
  obtain ⟨cid, clid, h, p⟩ := q
  refine ⟨fun hnp => ?_, fun n hn => ?_, fun hn => ?_, fun hp => ?_⟩
  · obtain ⟨h1, h2⟩ := hnp
    subst h1; subst h2
    simp [QueryClientState.args]
  · subst hn
    simp [QueryClientState.args]
  · subst hn
    simp [QueryClientState.args]
  · subst hp
    simp [QueryClientState.args]

/-- Witness for C7: with both optional fields absent the rendered parameter
list is exactly the two positional identifiers. -/
theorem c7_witness :
    QueryClientState.args ⟨"ibc-0", .str "07-tendermint-0", none, false⟩ =
      [.str "ibc-0", .str "07-tendermint-0"] :=
  (c7_query_client_state_args ⟨"ibc-0", .str "07-tendermint-0", none, false⟩).1 ⟨rfl, rfl⟩

/-- C9 helper: on a reply object, `CmdResult.success` first normalizes the
two fields with Python `or`, then branches on the normalized status. -/
theorem success_on_obj {α : Type} (name : String) (sargs : List String)
    (process : Json → Except PyErr α) (kvs : List (String × Json)) :
    CmdResult.success ⟨name, sargs, process, .obj kvs⟩ =
      (if Json.beq (pyOr (envStatus kvs) (.str "unknown")) (.str "success") then
        match process (pyOr (envResult kvs) (.obj [])) with
        | .ok v => .ok v
        | .error e => .error (.pyError e)
      else
        .error (.expectedSuccess name sargs (pyOr (envStatus kvs) (.str "unknown"))
          (pyOr (envResult kvs) (.obj [])))) := by
  simp only [CmdResult.success, dictGet, envStatus, envResult]

/-- C9 helper: a falsy optional value normalizes to the default. -/
theorem pyOr_of_optFalsy (x : Option Json) (d : Json) (h : optFalsy x = true) :
    pyOr x d = d := by
  cases x with
  | none => rfl
  | some v => simp [optFalsy] at h; simp [pyOr, h]

/-- C9: `CmdResult.success` normalizes every falsy field with Python `or`:
a falsy status (absent, `None`, the empty string, ...) makes the raised
`ExpectedSuccess` carry the status `"unknown"`, and a falsy result (absent,
`None`, empty string, empty list, ...) makes it carry the empty dict rather
than the original value. -/
theorem c9_success_normalizes_falsy {α : Type} (name : String) (sargs : List String)
    (process : Json → Except PyErr α) (kvs : List (String × Json)) :
    (optFalsy (envStatus kvs) = true →
      CmdResult.success ⟨name, sargs, process, .obj kvs⟩ =
        .error (.expectedSuccess name sargs (.str "unknown")
          (pyOr (envResult kvs) (.obj [])))) ∧
    (Json.beq (pyOr (envStatus kvs) (.str "unknown")) (.str "success") = false →
      optFalsy (envResult kvs) = true →
      CmdResult.success ⟨name, sargs, process, .obj kvs⟩ =
        .error (.expectedSuccess name sargs (pyOr (envStatus kvs) (.str "unknown"))
          (.obj []))) := by
  constructor
  · intro hf
    rw [success_on_obj, pyOr_of_optFalsy _ _ hf]
    rfl
  · intro hs hf
    rw [success_on_obj, pyOr_of_optFalsy _ _ hf, if_neg (by simp [hs])]

/-- Witness for C9: a reply with the empty-string status raises
`ExpectedSuccess` carrying `"unknown"`, and a reply with a non-success status
and an empty-list result raises `ExpectedSuccess` carrying the empty dict. -/
theorem c9_witness :
    CmdResult.success ⟨"tx raw create-client", [], TxCreateClient.process,
        .obj [("status", .str ""), ("result", .arr [.str "x"])]⟩ =
      .error (.expectedSuccess "tx raw create-client" [] (.str "unknown")
        (.arr [.str "x"])) ∧
    CmdResult.success ⟨"tx raw create-client", [], TxCreateClient.process,
        .obj [("status", .str "failed"), ("result", .arr [])]⟩ =
      .error (.expectedSuccess "tx raw create-client" [] (.str "failed") (.obj [])) := by
  constructor
  · exact ((c9_success_normalizes_falsy "tx raw create-client" [] TxCreateClient.process
      [("status", .str ""), ("result", .arr [.str "x"])]).1 (by decide)).trans (by rfl)
  · exact ((c9_success_normalizes_falsy "tx raw create-client" [] TxCreateClient.process
      [("status", .str "failed"), ("result", .arr [])]).2 (by decide) (by decide)).trans
      (by rfl)

/-- Counterexample to C2 as stated: for the reply
with status the empty string and a result carrying a message, the raised error carries
the status `"unknown"`, not the envelope's exact status string `""`. -/
theorem c2_counterexample :
    CmdResult.success ⟨"tx raw create-client", ["ibc-0", "ibc-1"], TxCreateClient.process,
        .obj [("status", .str ""), ("result", .obj [("msg", .str "boom")])]⟩ =
      .error (.expectedSuccess "tx raw create-client" ["ibc-0", "ibc-1"]
        (.str "unknown") (.obj [("msg", .str "boom")])) ∧
    Json.str "unknown" ≠ Json.str "" := by
  refine ⟨rfl, fun h => ?_⟩
  injection h with h2
  exact absurd h2 (by decide)

/-- C2 as amended: `unwrap` first normalizes the two fields with Python `or`
(a falsy status becomes `"unknown"`, a falsy result becomes the empty dict);
when the normalized status is `"success"` it returns `interpret` of the
normalized result (propagating `interpret`'s own faults unchanged), and
otherwise it raises `ExpectedSuccess` carrying the normalized status and the
normalized payload.  `unwrap` is a pure function of the envelope, so repeated
calls on the same envelope agree (idempotence). -/
theorem c2_unwrap_contract {α : Type} (name : String) (sargs : List String)
    (process : Json → Except PyErr α) (kvs : List (String × Json)) :
    (Json.beq (pyOr (envStatus kvs) (.str "unknown")) (.str "success") = true →
      CmdResult.success ⟨name, sargs, process, .obj kvs⟩ =
        (match process (pyOr (envResult kvs) (.obj [])) with
          | .ok v => .ok v
          | .error e => .error (.pyError e))) ∧
    (Json.beq (pyOr (envStatus kvs) (.str "unknown")) (.str "success") = false →
      CmdResult.success ⟨name, sargs, process, .obj kvs⟩ =
        .error (.expectedSuccess name sargs (pyOr (envStatus kvs) (.str "unknown"))
          (pyOr (envResult kvs) (.obj [])))) := by
  constructor
  · intro h
    rw [success_on_obj, if_pos h]
  · intro h
    rw [success_on_obj, if_neg (by simp [h])]

/-- Witness for C2 (amended): a non-success truthy status is carried
verbatim together with the truthy raw payload. -/
theorem c2_witness :
    CmdResult.success ⟨"query client state", ["ibc-0", "07-tendermint-0"],
        QueryClientState.process,
        .obj [("status", .str "error"), ("result", .obj [("msg", .str "boom")])]⟩ =
      .error (.expectedSuccess "query client state" ["ibc-0", "07-tendermint-0"]
        (.str "error") (.obj [("msg", .str "boom")])) :=
  ((c2_unwrap_contract "query client state" ["ibc-0", "07-tendermint-0"]
    QueryClientState.process
    [("status", .str "error"), ("result", .obj [("msg", .str "boom")])]).2
    (by decide)).trans (by rfl)

/-- Counterexample to C10 as stated: a success payload whose
`result[0]['UpdateClient']` directly holds the keys `revision_number` and
`revision_height` (the key set the claim names for update-client) still makes
`process` raise: the code first demands a `consensus_height` key. -/
theorem c10_counterexample :
    TxUpdateClient.process
        (.arr [.obj [("UpdateClient",
          .obj [("revision_number", .num 1), ("revision_height", .num 2)])]]) =
      .error (.keyError "consensus_height") := rfl

/-- C10 as amended: each `process` succeeds on any success payload containing
its full expected key chain — for update-client `result[0]['UpdateClient']`
must hold a `consensus_height` entry that itself holds `revision_number` and
`revision_height` — copying the field values into the typed result unchanged
and without any type validation (Height fields need not be integers); a
missing index, tag or field key raises the corresponding plain Python fault
(`IndexError`/`KeyError`), which `CmdResult.success` surfaces as an uncaught
Python error, never as `ExpectedSuccess` or a decode error. -/
theorem c10_process_keyed_extraction :
    (∀ res e0 d cid, pyGetIdx res 0 = .ok e0 → pyGetKey e0 "CreateClient" = .ok d →
      pyGetKey d "client_id" = .ok cid →
      TxCreateClient.process res = .ok ⟨cid⟩) ∧
    (∀ res e0 d ch rh rn, pyGetIdx res 0 = .ok e0 → pyGetKey e0 "UpdateClient" = .ok d →
      pyGetKey d "consensus_height" = .ok ch → pyGetKey ch "revision_height" = .ok rh →
      pyGetKey ch "revision_number" = .ok rn →
      TxUpdateClient.process res = .ok ⟨⟨rh, rn⟩⟩) ∧
    (∀ res e0 rh rn lh, pyGetIdx res 0 = .ok e0 → pyGetKey e0 "latest_height" = .ok lh →
      pyGetKey lh "revision_height" = .ok rh → pyGetKey lh "revision_number" = .ok rn →
      QueryClientState.process res = .ok ⟨⟨rh, rn⟩⟩) ∧
    (∀ res e0 d cid, pyGetIdx res 0 = .ok e0 →
      pyGetKey e0 "OpenInitConnection" = .ok d → pyGetKey d "connection_id" = .ok cid →
      TxConnInit.process res = .ok ⟨cid⟩) ∧
    (∀ res e0 d cid, pyGetIdx res 0 = .ok e0 →
      pyGetKey e0 "OpenTryConnection" = .ok d → pyGetKey d "connection_id" = .ok cid →
      TxConnTry.process res = .ok ⟨cid⟩) ∧
    (∀ res e0 d cid, pyGetIdx res 0 = .ok e0 →
      pyGetKey e0 "OpenAckConnection" = .ok d → pyGetKey d "connection_id" = .ok cid →
      TxConnAck.process res = .ok ⟨cid⟩) ∧
    (∀ res e0 d cid, pyGetIdx res 0 = .ok e0 →
      pyGetKey e0 "OpenConfirmConnection" = .ok d → pyGetKey d "connection_id" = .ok cid →
      TxConnConfirm.process res = .ok ⟨cid⟩) ∧
    (∀ res e, pyGetIdx res 0 = .error e →
      TxUpdateClient.process res = .error e) ∧
    (∀ res e0 e, pyGetIdx res 0 = .ok e0 → pyGetKey e0 "UpdateClient" = .error e →
      TxUpdateClient.process res = .error e) ∧
    (∀ res e0 d e, pyGetIdx res 0 = .ok e0 → pyGetKey e0 "UpdateClient" = .ok d →
      pyGetKey d "consensus_height" = .error e →
      TxUpdateClient.process res = .error e) ∧
    (∀ (α : Type) (name : String) (sargs : List String)
        (process : Json → Except PyErr α) (kvs : List (String × Json)) (e : PyErr),
      Json.beq (pyOr (envStatus kvs) (.str "unknown")) (.str "success") = true →
      process (pyOr (envResult kvs) (.obj [])) = .error e →
      CmdResult.success ⟨name, sargs, process, .obj kvs⟩ = .error (.pyError e)) := by
  refine ⟨?_, ?_, ?_, ?_, ?_, ?_, ?_, ?_, ?_, ?_, ?_⟩
  · intro res e0 d cid h0 h1 h2
    simp [TxCreateClient.process, h0, h1, h2]
  · intro res e0 d ch rh rn h0 h1 h2 h3 h4
    simp [TxUpdateClient.process, from_dict_Height, h0, h1, h2, h3, h4]
  · intro res e0 rh rn lh h0 h1 h2 h3
    simp [QueryClientState.process, from_dict_Height, h0, h1, h2, h3]
  · intro res e0 d cid h0 h1 h2
    simp [TxConnInit.process, h0, h1, h2]
  · intro res e0 d cid h0 h1 h2
    simp [TxConnTry.process, h0, h1, h2]
  · intro res e0 d cid h0 h1 h2
    simp [TxConnAck.process, h0, h1, h2]
  · intro res e0 d cid h0 h1 h2
    simp [TxConnConfirm.process, h0, h1, h2]
  · intro res e h0
    simp [TxUpdateClient.process, h0]
  · intro res e0 e h0 h1
    simp [TxUpdateClient.process, h0, h1]
  · intro res e0 d e h0 h1 h2
    simp [TxUpdateClient.process, h0, h1, h2]
  · intro α name sargs process kvs e hs hp
    rw [success_on_obj, if_pos hs, hp]

/-- Witness for C10 (amended): update-client extraction succeeds on a payload
whose Height fields are a string and `null` — the values are copied unchanged
with no type validation — and a payload missing the tag raises the plain
`KeyError` for that tag. -/
theorem c10_witness :
    TxUpdateClient.process
        (.arr [.obj [("UpdateClient", .obj [("consensus_height",
          .obj [("revision_height", .str "h"), ("revision_number", .null)])])]]) =
      .ok ⟨⟨.str "h", .null⟩⟩ ∧
    TxUpdateClient.process (.arr [.obj [("CreateClient", .obj [])]]) =
      .error (.keyError "UpdateClient") := by
  constructor
  · exact (c10_process_keyed_extraction.2.1 _ _ _ _ _ _ rfl rfl rfl rfl rfl)
  · exact (c10_process_keyed_extraction.2.2.2.2.2.2.2.2.1 _ _ _ rfl rfl)

/-- Unfolding lemma for the `run().success()` call pattern. -/
theorem runSuccess_eq {α : Type} (agent : Agent) (c name : String) (jargs : List Json)
    (process : Json → Except PyErr α) (fx : List Effect) :
    runSuccess agent c name jargs process fx =
      (match asStrs jargs with
       | none => (.error (.pyError .typeError), fx)
       | some sargs =>
         (CmdResult.success ⟨name, sargs, process, agent name sargs⟩,
          fx ++ [.issue c name sargs])) := by
  unfold runSuccess cmdRun
  cases asStrs jargs <;> rfl

/-- The client lifecycle, executed forward: when the agent's replies to the
three distinct commands of the lifecycle unwrap successfully — the create
step producing the client identifier `cid` — the lifecycle issues exactly
CREATE, QUERY, UPDATE, QUERY in that order, each followed by the fixed delay,
and returns the create-produced identifier.  The query and update results
`q` and `u` (which carry the only Heights of the lifecycle) do not occur in
the trace or in the returned value: no step consumes a Height produced by an
earlier step. -/
theorem cuqc_ok (agent : Agent) (c dst src cid : String)
    (q : QueryClientStateRes) (u : TxUpdateClientRes) (fx : List Effect)
    (h1 : replyOk agent TxCreateClient.name [dst, src] TxCreateClient.process ⟨.str cid⟩)
    (h2 : replyOk agent QueryClientState.name [dst, cid] QueryClientState.process q)
    (h3 : replyOk agent TxUpdateClient.name [dst, src, cid] TxUpdateClient.process u) :
    create_update_query_client agent c dst src fx =
      (.ok (.str cid),
       fx ++ [.issue c TxCreateClient.name [dst, src], .delay,
              .issue c QueryClientState.name [dst, cid], .delay,
              .issue c TxUpdateClient.name [dst, src, cid], .delay,
              .issue c QueryClientState.name [dst, cid], .delay]) := by
  unfold replyOk at h1 h2 h3
  simp only [create_update_query_client, create_client, query_client_state, update_client,
    runSuccess_eq, TxCreateClient.args, QueryClientState.args, TxUpdateClient.args,
    asStrs, Option.map_some', Option.map_none', split]
  rw [h1]
  simp only [asStrs, Option.map_some', Option.map_none']
  rw [h2]
  simp only [asStrs, Option.map_some', Option.map_none']
  rw [h3]
  simp only [asStrs, Option.map_some', Option.map_none']
  simp [List.append_assoc]

/-- The connection handshake, executed forward: when the four replies unwrap
successfully — INIT producing `ca`, TRY producing `cb`, ACK and CONFIRM
producing arbitrary identifiers `ackv` and `confv` — the handshake issues
INIT, TRY, ACK, CONFIRM in that order with a delay after each of the first
three (and none after CONFIRM), logs an error-level mismatch diagnostic
exactly when `ackv` differs from `ca` (resp. `confv` from `cb`), and returns
the INIT- and TRY-produced pair `(ca, cb)` regardless of `ackv` and
`confv`. -/
theorem handshake_ok (agent : Agent) (c sa sb cla clb ca cb : String)
    (ackv confv : Json) (fx : List Effect)
    (h1 : replyOk agent TxConnInit.name [sb, sa, clb, cla, "default-conn", "default-conn"]
      TxConnInit.process ⟨.str ca⟩)
    (h2 : replyOk agent TxConnTry.name [sa, sb, cla, clb, "default-conn", ca]
      TxConnTry.process ⟨.str cb⟩)
    (h3 : replyOk agent TxConnAck.name [sb, sa, clb, cla, ca, cb]
      TxConnAck.process ⟨ackv⟩)
    (h4 : replyOk agent TxConnConfirm.name [sa, sb, cla, clb, cb, ca]
      TxConnConfirm.process ⟨confv⟩) :
    connection_handshake agent c sa sb (.str cla) (.str clb) fx =
      (.ok (.str ca, .str cb),
       fx ++ [.issue c TxConnInit.name [sb, sa, clb, cla, "default-conn", "default-conn"],
              .delay,
              .issue c TxConnTry.name [sa, sb, cla, clb, "default-conn", ca], .delay,
              .issue c TxConnAck.name [sb, sa, clb, cla, ca, cb]]
         ++ (if Json.beq ackv (.str ca) then [] else [.logError (.str ca) ackv])
         ++ [.delay, .issue c TxConnConfirm.name [sa, sb, cla, clb, cb, ca]]
         ++ (if Json.beq confv (.str cb) then [] else [.logError (.str cb) confv])) := by
  unfold replyOk at h1 h2 h3 h4
  simp only [connection_handshake, conn_init, conn_try, conn_ack, conn_confirm,
    runSuccess_eq, TxConnInit.args, TxConnTry.args, TxConnAck.args, TxConnConfirm.args,
    asStrs, Option.map_some', Option.map_none', split]
  rw [h1]
  simp only [asStrs, Option.map_some', Option.map_none']
  rw [h2]
  simp only [asStrs, Option.map_some', Option.map_none']
  rw [h3]
  simp only [asStrs, Option.map_some', Option.map_none']
  rw [h4]
  cases hb1 : Json.beq ackv (.str ca) with
  | false =>
    cases hb2 : Json.beq confv (.str cb) with
    | false => simp [hb1, hb2, List.append_assoc]
    | true => simp [hb1, hb2, List.append_assoc]
  | true =>
    cases hb2 : Json.beq confv (.str cb) with
    | false => simp [hb1, hb2, List.append_assoc]
    | true => simp [hb1, hb2, List.append_assoc]

/-- C6: for any two chain identities `dst` and `src`, the client lifecycle
issues exactly 4 commands, in the order CREATE, QUERY, UPDATE, QUERY, and
returns the ClientId produced by the CREATE step.  The QUERY and UPDATE
results `q` and `u` — the only Heights produced during the lifecycle — are
arbitrary and occur neither in any issued command's arguments nor in the
returned value: no step consumes a Height returned by a previous step. -/
theorem c6_client_lifecycle (agent : Agent) (c dst src cid : String)
    (q : QueryClientStateRes) (u : TxUpdateClientRes) (fx : List Effect)
    (h1 : replyOk agent TxCreateClient.name [dst, src] TxCreateClient.process ⟨.str cid⟩)
    (h2 : replyOk agent QueryClientState.name [dst, cid] QueryClientState.process q)
    (h3 : replyOk agent TxUpdateClient.name [dst, src, cid] TxUpdateClient.process u) :
    create_update_query_client agent c dst src fx =
      (.ok (.str cid),
       fx ++ [.issue c TxCreateClient.name [dst, src], .delay,
              .issue c QueryClientState.name [dst, cid], .delay,
              .issue c TxUpdateClient.name [dst, src, cid], .delay,
              .issue c QueryClientState.name [dst, cid], .delay]) :=
  cuqc_ok agent c dst src cid q u fx h1 h2 h3

/-- Witness for C6: the lifecycle against the well-behaved mock agent for
`(dst="ibc-0", src="ibc-1")` issues CREATE, QUERY, UPDATE, QUERY and returns
the CREATE-produced identifier. -/
theorem c6_witness :
    create_update_query_client mockAgent "config.toml" "ibc-0" "ibc-1" [] =
      (.ok (.str "07-tendermint-0"),
       [.issue "config.toml" "tx raw create-client" ["ibc-0", "ibc-1"], .delay,
        .issue "config.toml" "query client state" ["ibc-0", "07-tendermint-0"], .delay,
        .issue "config.toml" "tx raw update-client" ["ibc-0", "ibc-1", "07-tendermint-0"],
        .delay,
        .issue "config.toml" "query client state" ["ibc-0", "07-tendermint-0"], .delay]) :=
  (c6_client_lifecycle mockAgent "config.toml" "ibc-0" "ibc-1" "07-tendermint-0"
    ⟨⟨.num 10, .num 0⟩⟩ ⟨⟨.num 11, .num 0⟩⟩ [] rfl rfl rfl).trans (by rfl)

/-- C3: when the ACK step's ConnectionId `ackv` differs from the
INIT-produced `ca`, the handshake logs an error-level diagnostic but does
not abort: the CONFIRM command is still issued (a CONFIRM result differing
from the TRY-produced `cb` is likewise only logged), and the returned pair
is the INIT- and TRY-produced `(ca, cb)` regardless of the ACK and CONFIRM
results. -/
theorem c3_ack_mismatch_nonfatal (agent : Agent) (c sa sb cla clb ca cb : String)
    (ackv confv : Json) (fx : List Effect)
    (h1 : replyOk agent TxConnInit.name [sb, sa, clb, cla, "default-conn", "default-conn"]
      TxConnInit.process ⟨.str ca⟩)
    (h2 : replyOk agent TxConnTry.name [sa, sb, cla, clb, "default-conn", ca]
      TxConnTry.process ⟨.str cb⟩)
    (h3 : replyOk agent TxConnAck.name [sb, sa, clb, cla, ca, cb]
      TxConnAck.process ⟨ackv⟩)
    (h4 : replyOk agent TxConnConfirm.name [sa, sb, cla, clb, cb, ca]
      TxConnConfirm.process ⟨confv⟩)
    (hm : Json.beq ackv (.str ca) = false) :
    connection_handshake agent c sa sb (.str cla) (.str clb) fx =
      (.ok (.str ca, .str cb),
       fx ++ [.issue c TxConnInit.name [sb, sa, clb, cla, "default-conn", "default-conn"],
              .delay,
              .issue c TxConnTry.name [sa, sb, cla, clb, "default-conn", ca], .delay,
              .issue c TxConnAck.name [sb, sa, clb, cla, ca, cb],
              .logError (.str ca) ackv, .delay,
              .issue c TxConnConfirm.name [sa, sb, cla, clb, cb, ca]]
         ++ (if Json.beq confv (.str cb) then [] else [.logError (.str cb) confv])) := by
  rw [handshake_ok agent c sa sb cla clb ca cb ackv confv fx h1 h2 h3 h4]
  simp [hm, List.append_assoc]

/-- Witness for C3: against the mock agent whose ACK reply carries
`connection-99` instead of the INIT-produced `connection-0`, the handshake
logs the mismatch, still issues CONFIRM, and returns the INIT/TRY pair. -/
theorem c3_witness :
    connection_handshake mockAgentAckMismatch "config.toml" "ibc-1" "ibc-0"
        (.str "07-tendermint-0") (.str "07-tendermint-0") [] =
      (.ok (.str "connection-0", .str "connection-1"),
       [.issue "config.toml" "tx raw conn-init"
          ["ibc-0", "ibc-1", "07-tendermint-0", "07-tendermint-0",
           "default-conn", "default-conn"], .delay,
        .issue "config.toml" "tx raw conn-try"
          ["ibc-1", "ibc-0", "07-tendermint-0", "07-tendermint-0",
           "default-conn", "connection-0"], .delay,
        .issue "config.toml" "tx raw conn-ack"
          ["ibc-0", "ibc-1", "07-tendermint-0", "07-tendermint-0",
           "connection-0", "connection-1"],
        .logError (.str "connection-0") (.str "connection-99"), .delay,
        .issue "config.toml" "tx raw conn-confirm"
          ["ibc-1", "ibc-0", "07-tendermint-0", "07-tendermint-0",
           "connection-1", "connection-0"]]) :=
  (c3_ack_mismatch_nonfatal mockAgentAckMismatch "config.toml" "ibc-1" "ibc-0"
    "07-tendermint-0" "07-tendermint-0" "connection-0" "connection-1"
    (.str "connection-99") (.str "connection-1") [] rfl rfl rfl rfl rfl).trans (by rfl)

/-- C1: for every configuration path, a full top-level run whose command
replies all unwrap successfully (the "assuming every reply has status
success" premise, stated as `replyOk` for each of the run's commands) issues
exactly 12 commands in the fixed order: CREATE, QUERY, UPDATE, QUERY towards
`(dst=ibc-0, src=ibc-1)`, the same four towards `(dst=ibc-1, src=ibc-0)`,
then INIT, TRY, ACK, CONFIRM — and the run returns normally. -/
theorem c1_full_run_issues_twelve (agent : Agent) (c cid0 cid1 ca cb : String)
    (q0 q1 : QueryClientStateRes) (u0 u1 : TxUpdateClientRes) (ackv confv : Json)
    (h1 : replyOk agent TxCreateClient.name ["ibc-0", "ibc-1"]
      TxCreateClient.process ⟨.str cid0⟩)
    (h2 : replyOk agent QueryClientState.name ["ibc-0", cid0]
      QueryClientState.process q0)
    (h3 : replyOk agent TxUpdateClient.name ["ibc-0", "ibc-1", cid0]
      TxUpdateClient.process u0)
    (h4 : replyOk agent TxCreateClient.name ["ibc-1", "ibc-0"]
      TxCreateClient.process ⟨.str cid1⟩)
    (h5 : replyOk agent QueryClientState.name ["ibc-1", cid1]
      QueryClientState.process q1)
    (h6 : replyOk agent TxUpdateClient.name ["ibc-1", "ibc-0", cid1]
      TxUpdateClient.process u1)
    (h7 : replyOk agent TxConnInit.name
      ["ibc-0", "ibc-1", cid0, cid1, "default-conn", "default-conn"]
      TxConnInit.process ⟨.str ca⟩)
    (h8 : replyOk agent TxConnTry.name ["ibc-1", "ibc-0", cid1, cid0, "default-conn", ca]
      TxConnTry.process ⟨.str cb⟩)
    (h9 : replyOk agent TxConnAck.name ["ibc-0", "ibc-1", cid0, cid1, ca, cb]
      TxConnAck.process ⟨ackv⟩)
    (h10 : replyOk agent TxConnConfirm.name ["ibc-1", "ibc-0", cid1, cid0, cb, ca]
      TxConnConfirm.process ⟨confv⟩) :
    (runAll agent c []).1 = .ok () ∧
    issuesOf (runAll agent c []).2 = expectedIssues c cid0 cid1 ca cb := by
  have e1 := cuqc_ok agent c "ibc-0" "ibc-1" cid0 q0 u0 [] h1 h2 h3
  simp only [runAll]
  rw [e1]
  simp only []
  rw [cuqc_ok agent c "ibc-1" "ibc-0" cid1 q1 u1 _ h4 h5 h6]
  simp only []
  rw [show (connection_handshake agent c "ibc-1" "ibc-0" (.str cid1) (.str cid0)
    (split ([] ++ [.issue c TxCreateClient.name ["ibc-0", "ibc-1"], .delay,
      .issue c QueryClientState.name ["ibc-0", cid0], .delay,
      .issue c TxUpdateClient.name ["ibc-0", "ibc-1", cid0], .delay,
      .issue c QueryClientState.name ["ibc-0", cid0], .delay] ++
      [.issue c TxCreateClient.name ["ibc-1", "ibc-0"], .delay,
       .issue c QueryClientState.name ["ibc-1", cid1], .delay,
       .issue c TxUpdateClient.name ["ibc-1", "ibc-0", cid1], .delay,
       .issue c QueryClientState.name ["ibc-1", cid1], .delay]))) = _ from
    handshake_ok agent c "ibc-1" "ibc-0" cid1 cid0 ca cb ackv confv _ h7 h8 h9 h10]
  refine ⟨rfl, ?_⟩
  cases hb1 : Json.beq ackv (.str ca) with
  | false =>
    cases hb2 : Json.beq confv (.str cb) with
    | false => simp [issuesOf, split, expectedIssues, List.filterMap_append, hb1, hb2, TxCreateClient.name, QueryClientState.name, TxUpdateClient.name, TxConnInit.name, TxConnTry.name, TxConnAck.name, TxConnConfirm.name]
    | true => simp [issuesOf, split, expectedIssues, List.filterMap_append, hb1, hb2, TxCreateClient.name, QueryClientState.name, TxUpdateClient.name, TxConnInit.name, TxConnTry.name, TxConnAck.name, TxConnConfirm.name]
  | true =>
    cases hb2 : Json.beq confv (.str cb) with
    | false => simp [issuesOf, split, expectedIssues, List.filterMap_append, hb1, hb2, TxCreateClient.name, QueryClientState.name, TxUpdateClient.name, TxConnInit.name, TxConnTry.name, TxConnAck.name, TxConnConfirm.name]
    | true => simp [issuesOf, split, expectedIssues, List.filterMap_append, hb1, hb2, TxCreateClient.name, QueryClientState.name, TxUpdateClient.name, TxConnInit.name, TxConnTry.name, TxConnAck.name, TxConnConfirm.name]

/-- Witness for C1: the full run against the well-behaved mock agent returns
normally and issues exactly the 12 expected commands in order. -/
theorem c1_witness :
    (runAll mockAgent "config.toml" []).1 = .ok () ∧
    issuesOf (runAll mockAgent "config.toml" []).2 =
      expectedIssues "config.toml" "07-tendermint-0" "07-tendermint-0"
        "connection-0" "connection-1" :=
  c1_full_run_issues_twelve mockAgent "config.toml" "07-tendermint-0" "07-tendermint-0"
    "connection-0" "connection-1" ⟨⟨.num 10, .num 0⟩⟩ ⟨⟨.num 10, .num 0⟩⟩
    ⟨⟨.num 11, .num 0⟩⟩ ⟨⟨.num 11, .num 0⟩⟩ (.str "connection-0") (.str "connection-1")
    rfl rfl rfl rfl rfl rfl rfl rfl rfl rfl

/-- C4: if the reply to the very first command (the CREATE step towards
`ibc-0`) is a JSON object whose normalized status is not `"success"`, the
run raises `ExpectedSuccess` — carrying that command, the normalized status
and the normalized payload — after issuing only that single command:
`ExpectedSuccess` is caught nowhere in the orchestration code, so the first
non-success reply terminates the whole sequence. -/
theorem c4_create_failure_aborts_run (agent : Agent) (c : String)
    (kvs : List (String × Json))
    (hobj : agent TxCreateClient.name ["ibc-0", "ibc-1"] = .obj kvs)
    (hst : Json.beq (pyOr (envStatus kvs) (.str "unknown")) (.str "success") = false) :
    runAll agent c [] =
      (.error (.expectedSuccess TxCreateClient.name ["ibc-0", "ibc-1"]
        (pyOr (envStatus kvs) (.str "unknown")) (pyOr (envResult kvs) (.obj []))),
       [.issue c TxCreateClient.name ["ibc-0", "ibc-1"]]) := by
  simp only [runAll, create_update_query_client, create_client, runSuccess_eq,
    TxCreateClient.args, asStrs, Option.map_some', Option.map_none']
  rw [hobj, success_on_obj, if_neg (by simp [hst])]
  simp

/-- Witness for C4: against the mock agent that replies
a status of "error" and a result with message "boom", the run aborts with
`ExpectedSuccess` right after the CREATE command, issuing nothing else. -/
theorem c4_witness :
    runAll mockAgentError "config.toml" [] =
      (.error (.expectedSuccess "tx raw create-client" ["ibc-0", "ibc-1"]
        (.str "error") (.obj [("msg", .str "boom")])),
       [.issue "config.toml" "tx raw create-client" ["ibc-0", "ibc-1"]]) :=
  (c4_create_failure_aborts_run mockAgentError "config.toml"
    [("status", .str "error"), ("result", .obj [("msg", .str "boom")])]
    rfl rfl).trans (by rfl)

/-- The full run against the well-behaved mock agent, for any configuration
path: it returns normally and its trace is the 12 commands in order, each
followed by the fixed delay except the final CONFIRM (with the one extra
delay `run` inserts between the client lifecycles and the handshake). -/
theorem mockRun_eq (config : String) :
    runAll mockAgent config [] =
      (.ok (),
       [.issue config "tx raw create-client" ["ibc-0", "ibc-1"], .delay,
        .issue config "query client state" ["ibc-0", "07-tendermint-0"], .delay,
        .issue config "tx raw update-client" ["ibc-0", "ibc-1", "07-tendermint-0"], .delay,
        .issue config "query client state" ["ibc-0", "07-tendermint-0"], .delay,
        .issue config "tx raw create-client" ["ibc-1", "ibc-0"], .delay,
        .issue config "query client state" ["ibc-1", "07-tendermint-0"], .delay,
        .issue config "tx raw update-client" ["ibc-1", "ibc-0", "07-tendermint-0"], .delay,
        .issue config "query client state" ["ibc-1", "07-tendermint-0"], .delay,
        .delay,
        .issue config "tx raw conn-init"
          ["ibc-0", "ibc-1", "07-tendermint-0", "07-tendermint-0",
           "default-conn", "default-conn"], .delay,
        .issue config "tx raw conn-try"
          ["ibc-1", "ibc-0", "07-tendermint-0", "07-tendermint-0",
           "default-conn", "connection-0"], .delay,
        .issue config "tx raw conn-ack"
          ["ibc-0", "ibc-1", "07-tendermint-0", "07-tendermint-0",
           "connection-0", "connection-1"], .delay,
        .issue config "tx raw conn-confirm"
          ["ibc-1", "ibc-0", "07-tendermint-0", "07-tendermint-0",
           "connection-1", "connection-0"]]) := by
  simp only [runAll]
  rw [cuqc_ok mockAgent config "ibc-0" "ibc-1" "07-tendermint-0"
    ⟨⟨.num 10, .num 0⟩⟩ ⟨⟨.num 11, .num 0⟩⟩ [] rfl rfl rfl]
  simp only []
  rw [cuqc_ok mockAgent config "ibc-1" "ibc-0" "07-tendermint-0"
    ⟨⟨.num 10, .num 0⟩⟩ ⟨⟨.num 11, .num 0⟩⟩ _ rfl rfl rfl]
  simp only []
  rw [show (connection_handshake mockAgent config "ibc-1" "ibc-0"
      (.str "07-tendermint-0") (.str "07-tendermint-0") _) = _ from
    handshake_ok mockAgent config "ibc-1" "ibc-0" "07-tendermint-0" "07-tendermint-0"
      "connection-0" "connection-1" (.str "connection-0") (.str "connection-1") _
      rfl rfl rfl rfl]
  simp [split, List.append_assoc, TxCreateClient.name, QueryClientState.name,
    TxUpdateClient.name, TxConnInit.name, TxConnTry.name, TxConnAck.name,
    TxConnConfirm.name,
    show Json.beq (.str "connection-0") (.str "connection-0") = true from rfl,
    show Json.beq (.str "connection-1") (.str "connection-1") = true from rfl]

/-- Counterexample to C8 as stated: in the trace of a full successful run
(against the well-behaved mock agent) it is not the case that every issued
command is followed by a delay effect — the final CONFIRM command is not. -/
theorem c8_counterexample :
    (runAll mockAgent "config.toml" []).1 = .ok () ∧
    everyIssueFollowedByDelay (mockTrace "config.toml") = false := by
  constructor
  · rw [mockRun_eq]
  · unfold mockTrace
    rw [mockRun_eq]
    rfl

/-- C8 as amended: in the trace of a full successful run (against the
well-behaved mock agent, for every configuration path) every issued command
except the last one is followed by a delay effect, and the last effect of
the trace is the CONFIRM command itself — so no delay follows the final
CONFIRM step. -/
theorem c8_delay_after_every_step_except_confirm (config : String) :
    everyIssueButLastFollowedByDelay (mockTrace config) = true ∧
    (mockTrace config).getLastD .delay =
      .issue config "tx raw conn-confirm"
        ["ibc-1", "ibc-0", "07-tendermint-0", "07-tendermint-0",
         "connection-1", "connection-0"] := by
  unfold mockTrace
  rw [mockRun_eq]
  exact ⟨rfl, rfl⟩

/-- Splitting a nonempty character list produces at least one line. -/
theorem splitlinesChars_ne_nil (c : Char) (cs : List Char) :
    splitlinesChars (c :: cs) ≠ [] := by
  simp only [splitlinesChars]
  split
  · simp
  · split
    · simp
    · simp

/-- A list ending in a newline splits into at least one line. -/
theorem splitlinesChars_snoc_newline_ne_nil (xs : List Char) :
    splitlinesChars (xs ++ ['\n']) ≠ [] := by
  cases xs with
  | nil => simp [splitlinesChars]
  | cons x xs => exact splitlinesChars_ne_nil x (xs ++ ['\n'])

/-- Splitting distributes over a newline with a nonempty remainder: the
lines of `xs ++ '\n' :: rest` are the lines of `xs ++ ['\n']` followed by
the lines of `rest`. -/
theorem splitlinesChars_append (xs rest : List Char) (h : rest ≠ []) :
    splitlinesChars (xs ++ '\n' :: rest) =
      splitlinesChars (xs ++ ['\n']) ++ splitlinesChars rest := by
  induction xs with
  | nil =>
    obtain ⟨r, rs, rfl⟩ := List.exists_cons_of_ne_nil h
    simp [splitlinesChars]
  | cons c xs ih =>
    by_cases hc : c = '\n'
    · subst hc
      simp only [List.cons_append, splitlinesChars, List.append_eq]
      rw [ih]
      simp
    · obtain ⟨hd, tl, heq⟩ :=
        List.exists_cons_of_ne_nil (splitlinesChars_snoc_newline_ne_nil xs)
      simp only [List.cons_append, splitlinesChars, List.append_eq, if_neg hc]
      rw [ih, heq]
      simp

/-- A nonempty newline-free character list is one single line. -/
theorem splitlinesChars_no_newline (l : List Char) (h : '\n' ∉ l) (hne : l ≠ []) :
    splitlinesChars l = [l] := by
  induction l with
  | nil => cases hne rfl
  | cons c cs ih =>
    have hc : c ≠ '\n' := fun hh => h (hh ▸ List.mem_cons_self _ _)
    have hcs : '\n' ∉ cs := fun hh => h (List.mem_cons_of_mem _ hh)
    by_cases hcse : cs = []
    · subst hcse
      simp [splitlinesChars, hc]
    · simp [splitlinesChars, hc, ih hcs hcse]

/-- A newline-free character list with one trailing newline is one single
line: the trailing newline does not produce a final empty piece. -/
theorem splitlinesChars_trailing (l : List Char) (h : '\n' ∉ l) :
    splitlinesChars (l ++ ['\n']) = [l] := by
  induction l with
  | nil => simp [splitlinesChars]
  | cons c cs ih =>
    have hc : c ≠ '\n' := fun hh => h (hh ▸ List.mem_cons_self _ _)
    have hcs : '\n' ∉ cs := fun hh => h (List.mem_cons_of_mem _ hh)
    simp [splitlinesChars, hc, ih hcs]

/-- Python's `lines[-1:]` on a list ending in `a` is `[a]`. -/
theorem drop_length_sub_one_snoc {α : Type} (xs : List α) (a : α) :
    (xs ++ [a]).drop ((xs ++ [a]).length - 1) = [a] := by
  simp

/-- Joining a single line returns it unchanged. -/
theorem join_singleton (a : String) : String.join [a] = a := by
  cases a
  simp [String.join]

/-- Counterexample to C5 as stated: when the captured output ends with an
empty line preceded by the reply line, `Cmd.run` selects the (empty) last
line, not the last non-empty line as specified — so the reply line is not
the one decoded. -/
theorem c5_counterexample :
    selectOutputLine "json reply line\n\n" = "" ∧
    lastNonEmptyLine "json reply line\n\n" = "json reply line" ∧
    ("" : String) ≠ "json reply line" := by
  refine ⟨rfl, rfl, by decide⟩

/-- C5 as amended: `Cmd.run` selects the last line of the captured output
(`''.join(lines[-1:])`), whatever it is: a newline-free nonempty line placed
last — with or without one trailing newline, and regardless of the preceding
output — is the line handed to the JSON decoder.  Only additional trailing
empty lines displace it (see the counterexample). -/
theorem c5_last_line_selected (pre line : String)
    (hnl : '\n' ∉ line.data) (hne : line ≠ "") :
    selectOutputLine (pre ++ "\n" ++ line) = line ∧
    selectOutputLine (pre ++ "\n" ++ line ++ "\n") = line := by
  have hld : line.data ≠ [] := by
    intro hh
    apply hne
    obtain ⟨d⟩ := line
    have hh2 : d = [] := hh
    subst hh2
    rfl
  have hmk : String.mk line.data = line := by
    obtain ⟨d⟩ := line
    rfl
  have hd1 : (pre ++ "\n" ++ line).data = pre.data ++ '\n' :: line.data := by
    simp [String.data_append, List.append_assoc,
      show ("\n" : String).data = ['\n'] from rfl]
  have hd2 : (pre ++ "\n" ++ line ++ "\n").data =
      pre.data ++ '\n' :: (line.data ++ ['\n']) := by
    simp [String.data_append, List.append_assoc,
      show ("\n" : String).data = ['\n'] from rfl]
  constructor
  · simp only [selectOutputLine, pySplitlines, hd1,
      splitlinesChars_append pre.data line.data hld,
      splitlinesChars_no_newline line.data hnl hld]
    simp only [List.map_append, List.map_cons, List.map_nil, hmk]
    rw [drop_length_sub_one_snoc, join_singleton]
  · have hne2 : line.data ++ ['\n'] ≠ [] := by simp
    simp only [selectOutputLine, pySplitlines, hd2,
      splitlinesChars_append pre.data (line.data ++ ['\n']) hne2,
      splitlinesChars_trailing line.data hnl]
    simp only [List.map_append, List.map_cons, List.map_nil, hmk]
    rw [drop_length_sub_one_snoc, join_singleton]

/-- Witness for C5 (amended): with a diagnostic line before it, the final
reply line is the selected one, with or without a single trailing newline. -/
theorem c5_witness :
    selectOutputLine ("log noise" ++ "\n" ++ "json reply line") = "json reply line" ∧
    selectOutputLine ("log noise" ++ "\n" ++ "json reply line" ++ "\n") =
      "json reply line" :=
  c5_last_line_selected "log noise" "json reply line" (by decide) (by decide)
